import Mathlib

/-!
Shallow embedding of the batch tools of `mcp_server.py` (Alexa-Shopping-List).

Remote collaborators are modelled as explicit parameters:
a batch tool receives the result of the single fetch-all call it makes
(`Option (List Item)`, `none` modelling a failed fetch, exactly as the Python
code receives `None`), and a success oracle `ok : Nat → Bool` giving the
outcome of its k-th mutate-one call.  Each embedded tool also records a ghost
call trace (`fetched`, `calls`) so that claims of the form "no collaborator
call is made" are statable.  The string overload of the Python tools wraps the
single string into a one-element list before any other step, so the embeddings
take the list form.
-/

/-- Python `str.strip()`: drop whitespace from both ends.  Implemented over
the character list so that concrete instances reduce in the kernel. -/
def pyStrip (s : String) : String :=
  ⟨((s.data.dropWhile Char.isWhitespace).reverse.dropWhile Char.isWhitespace).reverse⟩

/-- Python `str.lower()`: lower-case every character. -/
def pyLower (s : String) : String := ⟨s.data.map Char.toLower⟩

/-- The normalization contract of the spec: `normalize(s) = s.strip().lower()`. -/
def normalizeName (s : String) : String := pyLower (pyStrip s)

/-- A shopping-list record as the remote accessor returns it.  The Python code
reads the fields with `dict.get`, so `id` and `value` may be absent and
`completed` defaults to `False`. -/
structure Item where
  id : Option String
  value : Option String
  completed : Bool
deriving DecidableEq, Repr

/-- Python dict access `item.get` on the value key with default `d`. -/
def Item.valueD (i : Item) (d : String) : String := i.value.getD d

/-- Python truthiness of the id read via `dict.get`: `None` and the empty
string are both falsy. -/
def Item.hasId (i : Item) : Bool := !(i.id.getD "" == "")

/-- The `filter_incomplete_items` helper from `alexa_api.py`: keeps the items whose
`completed` field is falsy. -/
def filter_incomplete_items (items : List Item) : List Item :=
  items.filter (fun i => !i.completed)

/-- The match loop shared by `delete_item` and `mark_complete`: scan the
candidate pool in order and break at the first item whose value, stripped and
lower-cased, equals `vStrip.lower()` (`vStrip` is the already-stripped input
name). -/
def findMatch (vStrip : String) : List Item → Option Item
  | [] => none
  | i :: rest =>
    if pyLower (pyStrip (i.valueD "")) = pyLower vStrip then some i
    else findMatch vStrip rest

/-- The `enumerate`-based match loop of `mark_incomplete`: same first-match
rule, but also returns the index of the match. -/
def findMatchIdx (vStrip : String) : List Item → Nat → Option (Nat × Item)
  | [], _ => none
  | i :: rest, k =>
    if pyLower (pyStrip (i.valueD "")) = pyLower vStrip then some (k, i)
    else findMatchIdx vStrip rest (k + 1)

/-- Python `not values_to_process or not any(v.strip() for v in values)`:
the guard that makes every batch tool return its "no valid item values"
error before doing anything else. -/
def noValidValues (values : List String) : Bool :=
  values.isEmpty || !(values.any fun v => pyStrip v != "")

/-! ### delete_item -/

/-- Loop state of `delete_item`: the mutable candidate pool, the four result
buckets, the index of the next delete-one call and the ghost call trace. -/
structure DelSt where
  pool : List Item
  deleted : List String
  not_found : List String
  missing_id : List String
  failed : List String
  k : Nat
  calls : List Item
deriving DecidableEq, Repr

/-- One iteration of the `delete_item` per-name loop. -/
def deleteStep (ok : Nat → Bool) (st : DelSt) (value : String) : DelSt :=
  let v := pyStrip value
  if v = "" then st
  else
    match findMatch v st.pool with
    | none => { st with not_found := st.not_found ++ [v] }
    | some item =>
      if !item.hasId then { st with missing_id := st.missing_id ++ [v] }
      else if ok st.k then
        { st with deleted := st.deleted ++ [v], pool := st.pool.erase item,
                  k := st.k + 1, calls := st.calls ++ [item] }
      else
        { st with failed := st.failed ++ [v], k := st.k + 1,
                  calls := st.calls ++ [item] }

/-- Result of `delete_item`: either the early error string, or the filled
buckets; `fetched` and `calls` are the ghost collaborator-call trace. -/
structure DeleteOutcome where
  errorMsg : Option String
  deleted : List String
  not_found : List String
  missing_id : List String
  failed : List String
  fetched : Bool
  calls : List Item
deriving DecidableEq, Repr

/-- Embedding of `delete_item` on a batch of raw names.  `fetchResult` is what the single
`get_shopping_list_items` call returns (`none` on failure); the Python code
computes `filter_incomplete_items(all_items) if all_items else []`, so a
failed or empty fetch yields an empty candidate pool, not an error. -/
def delete_item (fetchResult : Option (List Item)) (ok : Nat → Bool)
    (values : List String) : DeleteOutcome :=
  if noValidValues values then
    { errorMsg := some "Error: No valid item values provided for deletion.",
      deleted := [], not_found := [], missing_id := [], failed := [],
      fetched := false, calls := [] }
  else
    let incomplete_items : List Item :=
      match fetchResult with
      | none => []
      | some items => if items = [] then [] else filter_incomplete_items items
    let st := values.foldl (deleteStep ok)
      { pool := incomplete_items, deleted := [], not_found := [],
        missing_id := [], failed := [], k := 0, calls := [] }
    { errorMsg := none, deleted := st.deleted, not_found := st.not_found,
      missing_id := st.missing_id, failed := st.failed,
      fetched := true, calls := st.calls }

/-! ### mark_complete -/

/-- Loop state of `mark_complete`. -/
structure MCSt where
  pool : List Item
  marked : List String
  not_found : List String
  already_complete : List String
  failed : List String
  k : Nat
  calls : List Item
deriving DecidableEq, Repr

/-- One iteration of the `mark_complete` per-name loop.  There is no
missing-id check on this path: a matched, not-yet-completed item is handed to
the mutate call whatever its `id`. -/
def markCompleteStep (ok : Nat → Bool) (st : MCSt) (value : String) : MCSt :=
  let v := pyStrip value
  if v = "" then st
  else
    match findMatch v st.pool with
    | none => { st with not_found := st.not_found ++ [v] }
    | some item =>
      if item.completed then
        { st with already_complete := st.already_complete ++ [v] }
      else if ok st.k then
        { st with marked := st.marked ++ [v], pool := st.pool.erase item,
                  k := st.k + 1, calls := st.calls ++ [item] }
      else
        { st with failed := st.failed ++ [v], k := st.k + 1,
                  calls := st.calls ++ [item] }

/-- Result of `mark_complete`. -/
structure MarkCompleteOutcome where
  errorMsg : Option String
  marked : List String
  not_found : List String
  already_complete : List String
  failed : List String
  fetched : Bool
  calls : List Item
deriving DecidableEq, Repr

/-- Embedding of `mark_complete` on a batch of raw names.  Like `delete_item`, a failed
fetch yields an empty candidate pool (`filter_incomplete_items(all_items) if
all_items else []`), not an error. -/
def mark_complete (fetchResult : Option (List Item)) (ok : Nat → Bool)
    (values : List String) : MarkCompleteOutcome :=
  if noValidValues values then
    { errorMsg := some "Error: No valid item values provided to mark complete.",
      marked := [], not_found := [], already_complete := [], failed := [],
      fetched := false, calls := [] }
  else
    let incomplete_items : List Item :=
      match fetchResult with
      | none => []
      | some items => if items = [] then [] else filter_incomplete_items items
    let st := values.foldl (markCompleteStep ok)
      { pool := incomplete_items, marked := [], not_found := [],
        already_complete := [], failed := [], k := 0, calls := [] }
    { errorMsg := none, marked := st.marked, not_found := st.not_found,
      already_complete := st.already_complete, failed := st.failed,
      fetched := true, calls := st.calls }

/-! ### mark_incomplete -/

/-- Loop state of `mark_incomplete`: the pool is the unfiltered snapshot, and
a successfully unmarked item is kept in the pool with `completed` flipped to
`false` (the Python code mutates `searchable_items[item_index]`). -/
structure MISt where
  pool : List Item
  unmarked : List String
  not_found : List String
  already_incomplete : List String
  failed : List String
  k : Nat
  calls : List Item
deriving DecidableEq, Repr

/-- One iteration of the `mark_incomplete` per-name loop. -/
def markIncompleteStep (ok : Nat → Bool) (st : MISt) (value : String) : MISt :=
  let v := pyStrip value
  if v = "" then st
  else
    match findMatchIdx v st.pool 0 with
    | none => { st with not_found := st.not_found ++ [v] }
    | some (idx, item) =>
      if !item.completed then
        { st with already_incomplete := st.already_incomplete ++ [v] }
      else if ok st.k then
        { st with unmarked := st.unmarked ++ [v],
                  pool := st.pool.set idx { item with completed := false },
                  k := st.k + 1, calls := st.calls ++ [item] }
      else
        { st with failed := st.failed ++ [v], k := st.k + 1,
                  calls := st.calls ++ [item] }

/-- Result of `mark_incomplete`. -/
structure MarkIncompleteOutcome where
  errorMsg : Option String
  unmarked : List String
  not_found : List String
  already_incomplete : List String
  failed : List String
  fetched : Bool
  calls : List Item
deriving DecidableEq, Repr

/-- Embedding of `mark_incomplete` on a batch of raw names.  Unlike `delete_item` and
`mark_complete`, a failed fetch (`all_items is None`) aborts the batch with an
error string; the search pool is the unfiltered snapshot. -/
def mark_incomplete (fetchResult : Option (List Item)) (ok : Nat → Bool)
    (values : List String) : MarkIncompleteOutcome :=
  if noValidValues values then
    { errorMsg := some "Error: No valid item values provided to mark incomplete.",
      unmarked := [], not_found := [], already_incomplete := [], failed := [],
      fetched := false, calls := [] }
  else
    match fetchResult with
    | none =>
      { errorMsg := some "Error: Could not retrieve shopping list items to process request.",
        unmarked := [], not_found := [], already_incomplete := [], failed := [],
        fetched := true, calls := [] }
    | some all_items =>
      let st := values.foldl (markIncompleteStep ok)
        { pool := all_items, unmarked := [], not_found := [],
          already_incomplete := [], failed := [], k := 0, calls := [] }
      { errorMsg := none, unmarked := st.unmarked, not_found := st.not_found,
        already_incomplete := st.already_incomplete, failed := st.failed,
        fetched := true, calls := st.calls }

/-! ### add_item -/

/-- Loop state of `add_item`. -/
structure AddSt where
  added : List String
  failed : List String
  k : Nat
  calls : List String
deriving DecidableEq, Repr

/-- One iteration of the `add_item` per-name loop: strip, skip if empty,
call add-one, bucket by the call result. -/
def addStep (ok : Nat → Bool) (st : AddSt) (value : String) : AddSt :=
  let v := pyStrip value
  if v = "" then st
  else if ok st.k then
    { st with added := st.added ++ [v], k := st.k + 1, calls := st.calls ++ [v] }
  else
    { st with failed := st.failed ++ [v], k := st.k + 1, calls := st.calls ++ [v] }

/-- Result of `add_item`; `calls` records the values passed to add-one. -/
structure AddOutcome where
  errorMsg : Option String
  added : List String
  failed : List String
  calls : List String
deriving DecidableEq, Repr

/-- Embedding of `add_item` on a batch of raw names.  No fetch is made at all on this
path. -/
def add_item (ok : Nat → Bool) (values : List String) : AddOutcome :=
  if noValidValues values then
    { errorMsg := some "Error: No valid item values provided to add.",
      added := [], failed := [], calls := [] }
  else
    let st := values.foldl (addStep ok) { added := [], failed := [], k := 0, calls := [] }
    { errorMsg := none, added := st.added, failed := st.failed, calls := st.calls }

/-! ### clear_completed_items -/

/-- Accumulated state of the `clear_completed_items` loop.  Besides the
fields `total_deleted_count` and `total_failed_items` of the source it carries ghost
instrumentation: `k`/`calls` trace the delete-one collaborator calls,
`missingIdRecords` collects the entries appended by the missing-id branch,
and `observedCompleted` counts the completed items seen across snapshots. -/
structure ClearSt where
  total_deleted_count : Nat
  total_failed_items : List String
  k : Nat
  calls : List Item
  missingIdRecords : List String
  observedCompleted : Nat
deriving DecidableEq, Repr

/-- One completed item of a `clear_completed_items` snapshot.  The second
component of the state pair is the `batch_failed` list of this iteration.  A
missing-id item is skipped with no delete call; otherwise delete-one is
called and, on failure, the value is recorded once (de-duplicated against
both `batch_failed` and `total_failed_items`). -/
def clearItemStep (ok : Nat → Bool) (acc : ClearSt × List String) (item : Item) :
    ClearSt × List String :=
  let st := acc.1
  let batch_failed := acc.2
  let item_value := item.valueD "<Unknown Item>"
  if !item.hasId then
    if (item_value ++ " (Missing ID)") ∈ st.total_failed_items then (st, batch_failed)
    else
      ({ st with
          total_failed_items := st.total_failed_items ++ [item_value ++ " (Missing ID)"],
          missingIdRecords := st.missingIdRecords ++ [item_value ++ " (Missing ID)"] },
       batch_failed)
  else
    let st1 : ClearSt := { st with k := st.k + 1, calls := st.calls ++ [item] }
    if ok st.k then
      ({ st1 with total_deleted_count := st1.total_deleted_count + 1 }, batch_failed)
    else if item_value ∈ batch_failed ∨ item_value ∈ st.total_failed_items then
      (st1, batch_failed)
    else (st1, batch_failed ++ [item_value])

/-- Result of `clear_completed_items`: the reported counts and failure list,
whether the loop stopped by exhausting `max_iterations` (the `while`-`else`
branch), plus the ghost trace fields of `ClearSt`. -/
structure ClearOutcome where
  errorMsg : Option String
  iterations : Nat
  total_deleted_count : Nat
  total_failed_items : List String
  capped : Bool
  calls : List Item
  missingIdRecords : List String
  observedCompleted : Nat
deriving DecidableEq, Repr

/-- The abort message built when a fetch fails mid-loop: the base error plus,
when any progress was made, the partial-progress suffix. -/
def clearFetchErrorMsg (st : ClearSt) : String :=
  let base := "Error: Could not retrieve shopping list items during clearing process."
  if st.total_deleted_count > 0 ∨ st.total_failed_items ≠ [] then
    base ++ " So far: Deleted " ++ toString st.total_deleted_count ++
      ", Failures: " ++ toString st.total_failed_items.length ++ "."
  else base

/-- The `while iteration < max_iterations` loop of `clear_completed_items`,
written as recursion on the remaining iteration budget (`fuel = 10 -
iteration`).  `fetchs n` is what the fetch-all call of iteration `n`
returns. -/
def clearLoop (fetchs : Nat → Option (List Item)) (ok : Nat → Bool) :
    Nat → Nat → ClearSt → ClearOutcome
  | 0, iteration, st =>
    { errorMsg := none, iterations := iteration,
      total_deleted_count := st.total_deleted_count,
      total_failed_items := st.total_failed_items, capped := true,
      calls := st.calls, missingIdRecords := st.missingIdRecords,
      observedCompleted := st.observedCompleted }
  | remaining + 1, iteration, st =>
    let iter := iteration + 1
    match fetchs iter with
    | none =>
      { errorMsg := some (clearFetchErrorMsg st), iterations := iter,
        total_deleted_count := st.total_deleted_count,
        total_failed_items := st.total_failed_items, capped := false,
        calls := st.calls, missingIdRecords := st.missingIdRecords,
        observedCompleted := st.observedCompleted }
    | some all_items =>
      let completed_items_batch := all_items.filter (fun i => i.completed)
      if completed_items_batch = [] then
        { errorMsg := none, iterations := iter,
          total_deleted_count := st.total_deleted_count,
          total_failed_items := st.total_failed_items, capped := false,
          calls := st.calls, missingIdRecords := st.missingIdRecords,
          observedCompleted := st.observedCompleted }
      else
        let stO : ClearSt :=
          { st with observedCompleted := st.observedCompleted + completed_items_batch.length }
        let res := completed_items_batch.foldl (clearItemStep ok) (stO, [])
        let stN : ClearSt :=
          { res.1 with total_failed_items := res.1.total_failed_items ++ res.2 }
        clearLoop fetchs ok remaining iter stN

/-- Embedding of `clear_completed_items`: up to `max_iterations = 10` snapshot-and-delete
iterations starting from an empty accumulator. -/
def clear_completed_items (fetchs : Nat → Option (List Item)) (ok : Nat → Bool) :
    ClearOutcome :=
  clearLoop fetchs ok 10 0
    { total_deleted_count := 0, total_failed_items := [], k := 0, calls := [],
      missingIdRecords := [], observedCompleted := 0 }

/-! ### first sanity checks -/

example :
    delete_item (some [⟨some "1", some " Milk ", false⟩]) (fun _ => true)
      ["milk", " Milk "] =
    { errorMsg := none, deleted := ["milk"], not_found := ["Milk"],
      missing_id := [], failed := [], fetched := true,
      calls := [⟨some "1", some " Milk ", false⟩] } := by decide

example :
    mark_complete (some [⟨some "1", some "Eggs", true⟩]) (fun _ => true) ["Eggs"] =
    { errorMsg := none, marked := [], not_found := ["Eggs"],
      already_complete := [], failed := [], fetched := true, calls := [] } := by decide

example :
    mark_incomplete (some [⟨some "1", some "milk", true⟩]) (fun _ => true)
      ["milk", "milk"] =
    { errorMsg := none, unmarked := ["milk"], not_found := [],
      already_incomplete := ["milk"], failed := [], fetched := true,
      calls := [⟨some "1", some "milk", true⟩] } := by decide

example :
    add_item (fun _ => true) [" a ", "", "b"] =
    { errorMsg := none, added := ["a", "b"], failed := [], calls := ["a", "b"] } := by
  decide

example :
    clear_completed_items
      (fun n => if n = 1 then some [⟨some "1", some "x", true⟩, ⟨none, some "y", true⟩]
                else some [⟨some "2", some "z", false⟩])
      (fun _ => true) =
    { errorMsg := none, iterations := 2, total_deleted_count := 1,
      total_failed_items := ["y (Missing ID)"], capped := false,
      calls := [⟨some "1", some "x", true⟩],
      missingIdRecords := ["y (Missing ID)"], observedCompleted := 2 } := by decide

/-! ### helper lemmas -/

/-- A batch in which every name strips to the empty string trips the
"no valid item values" guard. -/
lemma noValid_of_all_blank (vs : List String) (h : ∀ v ∈ vs, pyStrip v = "") :
    noValidValues vs = true := by
  cases vs with
  | nil => rfl
  | cons v vs =>
    simp only [noValidValues, Bool.or_eq_true, Bool.not_eq_eq_eq_not, Bool.not_true,
      List.any_eq_false]
    right
    intro x hx
    simp [h x hx]

/-- The match loop only returns members of the pool. -/
lemma findMatch_mem {v : String} {items : List Item} {i : Item}
    (h : findMatch v items = some i) : i ∈ items := by
  induction items with
  | nil => simp [findMatch] at h
  | cons j rest ih =>
    by_cases hj : pyLower (pyStrip (j.valueD "")) = pyLower v
    · simp [findMatch, hj] at h
      simp [h]
    · simp [findMatch, hj] at h
      exact List.mem_cons_of_mem _ (ih h)

/-- Folding the `delete_item` loop over an empty candidate pool buckets every
nonblank stripped name into `not_found` and changes nothing else. -/
lemma delete_foldl_nil (ok : Nat → Bool) :
    ∀ (vs : List String) (st : DelSt), st.pool = [] →
      vs.foldl (deleteStep ok) st =
        { st with not_found :=
            st.not_found ++ (vs.map pyStrip).filter (fun s => s != "") } := by
  intro vs
  induction vs with
  | nil => intro st _; simp
  | cons v vs ih =>
    intro st h
    by_cases hv : pyStrip v = ""
    · have hstep : deleteStep ok st v = st := by
        simp [deleteStep, hv]
      rw [List.foldl_cons, hstep, ih st h]
      simp [hv]
    · have hstep : deleteStep ok st v =
          { st with not_found := st.not_found ++ [pyStrip v] } := by
        simp [deleteStep, hv, h, findMatch]
      rw [List.foldl_cons, hstep, ih _ (by simp [h])]
      simp [hv, List.append_assoc]

/-- Folding the `mark_complete` loop over an empty candidate pool buckets
every nonblank stripped name into `not_found` and changes nothing else. -/
lemma mc_foldl_nil (ok : Nat → Bool) :
    ∀ (vs : List String) (st : MCSt), st.pool = [] →
      vs.foldl (markCompleteStep ok) st =
        { st with not_found :=
            st.not_found ++ (vs.map pyStrip).filter (fun s => s != "") } := by
  intro vs
  induction vs with
  | nil => intro st _; simp
  | cons v vs ih =>
    intro st h
    by_cases hv : pyStrip v = ""
    · have hstep : markCompleteStep ok st v = st := by
        simp [markCompleteStep, hv]
      rw [List.foldl_cons, hstep, ih st h]
      simp [hv]
    · have hstep : markCompleteStep ok st v =
          { st with not_found := st.not_found ++ [pyStrip v] } := by
        simp [markCompleteStep, hv, h, findMatch]
      rw [List.foldl_cons, hstep, ih _ (by simp [h])]
      simp [hv, List.append_assoc]

/-- The indexed match loop of `mark_incomplete` selects the same candidate
as the plain one. -/
lemma findMatchIdx_snd (v : String) :
    ∀ (items : List Item) (k : Nat),
      (findMatchIdx v items k).map Prod.snd = findMatch v items := by
  intro items
  induction items with
  | nil => intro k; rfl
  | cons i rest ih =>
    intro k
    by_cases h : pyLower (pyStrip (i.valueD "")) = pyLower v
    · simp [findMatchIdx, findMatch, h]
    · simp [findMatchIdx, findMatch, h, ih]

/-- C7: the matching step (shared by `delete_item`, `mark_complete` and, in
its indexed form, `mark_incomplete`) selects the first candidate, in pool
order, whose stripped and lower-cased value equals the (lower-cased)
stripped name, and selects none exactly when no candidate normalizes to
it. -/
theorem findMatch_first (v : String) (items : List Item) :
    findMatch v items =
      items.find? (fun i => pyLower (pyStrip (i.valueD "")) == pyLower v) ∧
    (findMatch v items = none ↔
      ∀ i ∈ items, ¬ pyLower (pyStrip (i.valueD "")) = pyLower v) ∧
    (findMatchIdx v items 0).map Prod.snd = findMatch v items := by
  refine ⟨?_, ?_, findMatchIdx_snd v items 0⟩
  · induction items with
    | nil => rfl
    | cons i rest ih =>
      by_cases h : pyLower (pyStrip (i.valueD "")) = pyLower v
      · simp [findMatch, List.find?, h]
      · have hb : (pyLower (pyStrip (i.valueD "")) == pyLower v) = false := by
          simp [h]
        simp [findMatch, List.find?, h, hb, ih]
  · induction items with
    | nil => simp [findMatch]
    | cons i rest ih =>
      by_cases h : pyLower (pyStrip (i.valueD "")) = pyLower v
      · simp [findMatch, h]
      · simp [findMatch, h, ih]

/-- Folding the `add_item` loop never puts an empty string into a bucket. -/
lemma add_foldl_nonblank (ok : Nat → Bool) :
    ∀ (vs : List String) (st : AddSt),
      (∀ x ∈ st.added, x ≠ "") → (∀ x ∈ st.failed, x ≠ "") →
      (∀ x ∈ (vs.foldl (addStep ok) st).added, x ≠ "") ∧
      (∀ x ∈ (vs.foldl (addStep ok) st).failed, x ≠ "") := by
  intro vs
  induction vs with
  | nil => intro st ha hf; exact ⟨ha, hf⟩
  | cons v vs ih =>
    intro st ha hf
    rw [List.foldl_cons]
    by_cases hv : pyStrip v = ""
    · have : addStep ok st v = st := by simp [addStep, hv]
      rw [this]; exact ih st ha hf
    · by_cases hk : ok st.k = true
      · have : addStep ok st v =
            { st with added := st.added ++ [pyStrip v], k := st.k + 1,
                      calls := st.calls ++ [pyStrip v] } := by
          simp [addStep, hv, hk]
        rw [this]
        refine ih _ ?_ hf
        intro x hx
        rcases List.mem_append.mp hx with h1 | h1
        · exact ha x h1
        · simp at h1; simp [h1, hv]
      · have : addStep ok st v =
            { st with failed := st.failed ++ [pyStrip v], k := st.k + 1,
                      calls := st.calls ++ [pyStrip v] } := by
          simp [addStep, hv, hk]
        rw [this]
        refine ih _ ha ?_
        intro x hx
        rcases List.mem_append.mp hx with h1 | h1
        · exact hf x h1
        · simp at h1; simp [h1, hv]

/-- C8: a batch whose every name strips to empty (including the empty batch)
makes `add_item` return exactly "Error: No valid item values provided to
add." with no add-one call; and no empty name ever appears in a bucket. -/
theorem add_item_blank_batch :
    (∀ (ok : Nat → Bool) (vs : List String), (∀ v ∈ vs, pyStrip v = "") →
      add_item ok vs =
        { errorMsg := some "Error: No valid item values provided to add.",
          added := [], failed := [], calls := [] }) ∧
    (∀ (ok : Nat → Bool) (vs : List String),
      (∀ x ∈ (add_item ok vs).added, x ≠ "") ∧
      (∀ x ∈ (add_item ok vs).failed, x ≠ "")) := by
  constructor
  · intro ok vs h
    simp [add_item, noValid_of_all_blank vs h]
  · intro ok vs
    by_cases hn : noValidValues vs = true
    · simp [add_item, hn]
    · have := add_foldl_nonblank ok vs
        { added := [], failed := [], k := 0, calls := [] }
        (by intro x hx; simp at hx) (by intro x hx; simp at hx)
      simp only [add_item, hn, if_false, Bool.false_eq_true]
      constructor
      · intro x hx; exact this.1 x hx
      · intro x hx; exact this.2 x hx

/-- Witness for C8 at the example input given in the spec. -/
theorem add_item_blank_batch_witness :
    add_item (fun _ => true) ["", "  "] =
      { errorMsg := some "Error: No valid item values provided to add.",
        added := [], failed := [], calls := [] } :=
  add_item_blank_batch.1 (fun _ => true) ["", "  "] (by decide)

/-- C9: on an all-blank batch, `delete_item`, `mark_complete` and
`mark_incomplete` each return their operation-specific error string with the
fetch never made (`fetched = false`) and no mutate call (`calls = []`). -/
theorem blank_batch_no_fetch (fetchR : Option (List Item)) (ok : Nat → Bool)
    (vs : List String) (h : ∀ v ∈ vs, pyStrip v = "") :
    delete_item fetchR ok vs =
      { errorMsg := some "Error: No valid item values provided for deletion.",
        deleted := [], not_found := [], missing_id := [], failed := [],
        fetched := false, calls := [] } ∧
    mark_complete fetchR ok vs =
      { errorMsg := some "Error: No valid item values provided to mark complete.",
        marked := [], not_found := [], already_complete := [], failed := [],
        fetched := false, calls := [] } ∧
    mark_incomplete fetchR ok vs =
      { errorMsg := some "Error: No valid item values provided to mark incomplete.",
        unmarked := [], not_found := [], already_incomplete := [], failed := [],
        fetched := false, calls := [] } := by
  have hn := noValid_of_all_blank vs h
  exact ⟨by simp [delete_item, hn], by simp [mark_complete, hn],
    by simp [mark_incomplete, hn]⟩

/-- Witness for C9 on a concrete all-blank batch. -/
theorem blank_batch_no_fetch_witness :
    delete_item (some []) (fun _ => true) [" ", ""] =
      { errorMsg := some "Error: No valid item values provided for deletion.",
        deleted := [], not_found := [], missing_id := [], failed := [],
        fetched := false, calls := [] } :=
  (blank_batch_no_fetch (some []) (fun _ => true) [" ", ""] (by decide)).1

/-- Witness for C7: the first-match rule picks the later candidate when only
it normalizes to the name. -/
theorem findMatch_first_witness :
    findMatch "Milk" [⟨some "2", some "eggs", false⟩, ⟨some "1", some " milk ", false⟩] =
      some ⟨some "1", some " milk ", false⟩ := by
  have h := findMatch_first "Milk"
    [⟨some "2", some "eggs", false⟩, ⟨some "1", some " milk ", false⟩]
  rw [h.1]; decide

/-- C6 counterexample: `delete_item(["Milk"])` against an empty snapshot puts
the stripped-but-not-lower-cased "Milk" into `not_found`, not the normalized
"milk" the claim requires. -/
theorem buckets_normalized_cex :
    (delete_item (some []) (fun _ => true) ["Milk"]).not_found = ["Milk"] ∧
    ["Milk"] ≠ [normalizeName "Milk"] := by
  exact ⟨by decide, by decide⟩

/-- C6 (amended): each per-name step of the four batch loops appends the
stripped (whitespace-trimmed, case-preserving — not lower-cased) form of the
input name to exactly one bucket, leaving every other bucket unchanged, so
buckets hold stripped forms in encounter order; a name stripping to empty
changes nothing. -/
theorem buckets_hold_stripped_names :
    (∀ (ok : Nat → Bool) (st : DelSt) (v : String),
      (pyStrip v = "" → deleteStep ok st v = st) ∧
      (pyStrip v ≠ "" →
        ((deleteStep ok st v).deleted = st.deleted ++ [pyStrip v] ∧
         (deleteStep ok st v).not_found = st.not_found ∧
         (deleteStep ok st v).missing_id = st.missing_id ∧
         (deleteStep ok st v).failed = st.failed) ∨
        ((deleteStep ok st v).deleted = st.deleted ∧
         (deleteStep ok st v).not_found = st.not_found ++ [pyStrip v] ∧
         (deleteStep ok st v).missing_id = st.missing_id ∧
         (deleteStep ok st v).failed = st.failed) ∨
        ((deleteStep ok st v).deleted = st.deleted ∧
         (deleteStep ok st v).not_found = st.not_found ∧
         (deleteStep ok st v).missing_id = st.missing_id ++ [pyStrip v] ∧
         (deleteStep ok st v).failed = st.failed) ∨
        ((deleteStep ok st v).deleted = st.deleted ∧
         (deleteStep ok st v).not_found = st.not_found ∧
         (deleteStep ok st v).missing_id = st.missing_id ∧
         (deleteStep ok st v).failed = st.failed ++ [pyStrip v]))) ∧
    (∀ (ok : Nat → Bool) (st : MCSt) (v : String),
      (pyStrip v = "" → markCompleteStep ok st v = st) ∧
      (pyStrip v ≠ "" →
        ((markCompleteStep ok st v).marked = st.marked ++ [pyStrip v] ∧
         (markCompleteStep ok st v).not_found = st.not_found ∧
         (markCompleteStep ok st v).already_complete = st.already_complete ∧
         (markCompleteStep ok st v).failed = st.failed) ∨
        ((markCompleteStep ok st v).marked = st.marked ∧
         (markCompleteStep ok st v).not_found = st.not_found ++ [pyStrip v] ∧
         (markCompleteStep ok st v).already_complete = st.already_complete ∧
         (markCompleteStep ok st v).failed = st.failed) ∨
        ((markCompleteStep ok st v).marked = st.marked ∧
         (markCompleteStep ok st v).not_found = st.not_found ∧
         (markCompleteStep ok st v).already_complete = st.already_complete ++ [pyStrip v] ∧
         (markCompleteStep ok st v).failed = st.failed) ∨
        ((markCompleteStep ok st v).marked = st.marked ∧
         (markCompleteStep ok st v).not_found = st.not_found ∧
         (markCompleteStep ok st v).already_complete = st.already_complete ∧
         (markCompleteStep ok st v).failed = st.failed ++ [pyStrip v]))) ∧
    (∀ (ok : Nat → Bool) (st : MISt) (v : String),
      (pyStrip v = "" → markIncompleteStep ok st v = st) ∧
      (pyStrip v ≠ "" →
        ((markIncompleteStep ok st v).unmarked = st.unmarked ++ [pyStrip v] ∧
         (markIncompleteStep ok st v).not_found = st.not_found ∧
         (markIncompleteStep ok st v).already_incomplete = st.already_incomplete ∧
         (markIncompleteStep ok st v).failed = st.failed) ∨
        ((markIncompleteStep ok st v).unmarked = st.unmarked ∧
         (markIncompleteStep ok st v).not_found = st.not_found ++ [pyStrip v] ∧
         (markIncompleteStep ok st v).already_incomplete = st.already_incomplete ∧
         (markIncompleteStep ok st v).failed = st.failed) ∨
        ((markIncompleteStep ok st v).unmarked = st.unmarked ∧
         (markIncompleteStep ok st v).not_found = st.not_found ∧
         (markIncompleteStep ok st v).already_incomplete = st.already_incomplete ++ [pyStrip v] ∧
         (markIncompleteStep ok st v).failed = st.failed) ∨
        ((markIncompleteStep ok st v).unmarked = st.unmarked ∧
         (markIncompleteStep ok st v).not_found = st.not_found ∧
         (markIncompleteStep ok st v).already_incomplete = st.already_incomplete ∧
         (markIncompleteStep ok st v).failed = st.failed ++ [pyStrip v]))) ∧
    (∀ (ok : Nat → Bool) (st : AddSt) (v : String),
      (pyStrip v = "" → addStep ok st v = st) ∧
      (pyStrip v ≠ "" →
        ((addStep ok st v).added = st.added ++ [pyStrip v] ∧
         (addStep ok st v).failed = st.failed) ∨
        ((addStep ok st v).added = st.added ∧
         (addStep ok st v).failed = st.failed ++ [pyStrip v]))) := by
  refine ⟨?_, ?_, ?_, ?_⟩
  · intro ok st v
    refine ⟨fun h => by simp [deleteStep, h], fun hv => ?_⟩
    rcases hfm : findMatch (pyStrip v) st.pool with _ | item
    · exact Or.inr (Or.inl (by simp [deleteStep, hv, hfm]))
    · by_cases hid : item.hasId = true
      · by_cases hk : ok st.k = true
        · exact Or.inl (by simp [deleteStep, hv, hfm, hid, hk])
        · exact Or.inr (Or.inr (Or.inr (by simp [deleteStep, hv, hfm, hid, hk])))
      · have hid2 : item.hasId = false := by simpa using hid
        exact Or.inr (Or.inr (Or.inl (by simp [deleteStep, hv, hfm, hid2])))
  · intro ok st v
    refine ⟨fun h => by simp [markCompleteStep, h], fun hv => ?_⟩
    rcases hfm : findMatch (pyStrip v) st.pool with _ | item
    · exact Or.inr (Or.inl (by simp [markCompleteStep, hv, hfm]))
    · by_cases hc : item.completed = true
      · exact Or.inr (Or.inr (Or.inl (by simp [markCompleteStep, hv, hfm, hc])))
      · have hc2 : item.completed = false := by simpa using hc
        by_cases hk : ok st.k = true
        · exact Or.inl (by simp [markCompleteStep, hv, hfm, hc2, hk])
        · exact Or.inr (Or.inr (Or.inr
            (by simp [markCompleteStep, hv, hfm, hc2, hk])))
  · intro ok st v
    refine ⟨fun h => by simp [markIncompleteStep, h], fun hv => ?_⟩
    rcases hfm : findMatchIdx (pyStrip v) st.pool 0 with _ | ⟨idx, item⟩
    · exact Or.inr (Or.inl (by simp [markIncompleteStep, hv, hfm]))
    · by_cases hc : item.completed = true
      · by_cases hk : ok st.k = true
        · exact Or.inl (by simp [markIncompleteStep, hv, hfm, hc, hk])
        · exact Or.inr (Or.inr (Or.inr
            (by simp [markIncompleteStep, hv, hfm, hc, hk])))
      · have hc2 : item.completed = false := by simpa using hc
        exact Or.inr (Or.inr (Or.inl
          (by simp [markIncompleteStep, hv, hfm, hc2])))
  · intro ok st v
    refine ⟨fun h => by simp [addStep, h], fun hv => ?_⟩
    by_cases hk : ok st.k = true
    · exact Or.inl (by simp [addStep, hv, hk])
    · exact Or.inr (by simp [addStep, hv, hk])

/-- Witness for C6 at a concrete step: " Milk " lands, stripped to "Milk", in
exactly one bucket. -/
theorem buckets_hold_stripped_names_witness :
    ((deleteStep (fun _ => true)
        { pool := [], deleted := [], not_found := [], missing_id := [],
          failed := [], k := 0, calls := [] } " Milk ").deleted = [] ++ ["Milk"] ∧
      (deleteStep (fun _ => true)
        { pool := [], deleted := [], not_found := [], missing_id := [],
          failed := [], k := 0, calls := [] } " Milk ").not_found = [] ∧
      (deleteStep (fun _ => true)
        { pool := [], deleted := [], not_found := [], missing_id := [],
          failed := [], k := 0, calls := [] } " Milk ").missing_id = [] ∧
      (deleteStep (fun _ => true)
        { pool := [], deleted := [], not_found := [], missing_id := [],
          failed := [], k := 0, calls := [] } " Milk ").failed = []) ∨
    ((deleteStep (fun _ => true)
        { pool := [], deleted := [], not_found := [], missing_id := [],
          failed := [], k := 0, calls := [] } " Milk ").deleted = [] ∧
      (deleteStep (fun _ => true)
        { pool := [], deleted := [], not_found := [], missing_id := [],
          failed := [], k := 0, calls := [] } " Milk ").not_found = [] ++ ["Milk"] ∧
      (deleteStep (fun _ => true)
        { pool := [], deleted := [], not_found := [], missing_id := [],
          failed := [], k := 0, calls := [] } " Milk ").missing_id = [] ∧
      (deleteStep (fun _ => true)
        { pool := [], deleted := [], not_found := [], missing_id := [],
          failed := [], k := 0, calls := [] } " Milk ").failed = []) ∨
    ((deleteStep (fun _ => true)
        { pool := [], deleted := [], not_found := [], missing_id := [],
          failed := [], k := 0, calls := [] } " Milk ").deleted = [] ∧
      (deleteStep (fun _ => true)
        { pool := [], deleted := [], not_found := [], missing_id := [],
          failed := [], k := 0, calls := [] } " Milk ").not_found = [] ∧
      (deleteStep (fun _ => true)
        { pool := [], deleted := [], not_found := [], missing_id := [],
          failed := [], k := 0, calls := [] } " Milk ").missing_id = [] ++ ["Milk"] ∧
      (deleteStep (fun _ => true)
        { pool := [], deleted := [], not_found := [], missing_id := [],
          failed := [], k := 0, calls := [] } " Milk ").failed = []) ∨
    ((deleteStep (fun _ => true)
        { pool := [], deleted := [], not_found := [], missing_id := [],
          failed := [], k := 0, calls := [] } " Milk ").deleted = [] ∧
      (deleteStep (fun _ => true)
        { pool := [], deleted := [], not_found := [], missing_id := [],
          failed := [], k := 0, calls := [] } " Milk ").not_found = [] ∧
      (deleteStep (fun _ => true)
        { pool := [], deleted := [], not_found := [], missing_id := [],
          failed := [], k := 0, calls := [] } " Milk ").missing_id = [] ∧
      (deleteStep (fun _ => true)
        { pool := [], deleted := [], not_found := [], missing_id := [],
          failed := [], k := 0, calls := [] } " Milk ").failed = [] ++ ["Milk"]) :=
  (buckets_hold_stripped_names.1 (fun _ => true)
    { pool := [], deleted := [], not_found := [], missing_id := [],
      failed := [], k := 0, calls := [] } " Milk ").2 (by decide)

/-- C1 counterexample: on a failed fetch, `delete_item` returns no error
string, buckets the name into `not_found`, and reports a normal summary
result — the batch is not aborted. -/
theorem fetch_failure_cex :
    (delete_item none (fun _ => true) ["milk"]).errorMsg = none ∧
    (delete_item none (fun _ => true) ["milk"]).not_found = ["milk"] ∧
    (delete_item none (fun _ => true) ["milk"]).calls = [] := by
  exact ⟨by decide, by decide, by decide⟩

/-- C1 (amended): on a failed fetch, `mark_incomplete` aborts with its error
string and `clear_completed_items` aborts with its error message carrying the
partial progress accumulated so far, neither making any further mutate call;
`delete_item` and `mark_complete`, however, treat the failed fetch as an
empty snapshot: no error is surfaced, every nonblank name is bucketed into
`not_found`, and no mutate call is made. -/
theorem fetch_failure_paths :
    (∀ (ok : Nat → Bool) (vs : List String), noValidValues vs = false →
      delete_item none ok vs =
        { errorMsg := none, deleted := [],
          not_found := (vs.map pyStrip).filter (fun s => s != ""),
          missing_id := [], failed := [], fetched := true, calls := [] }) ∧
    (∀ (ok : Nat → Bool) (vs : List String), noValidValues vs = false →
      mark_complete none ok vs =
        { errorMsg := none, marked := [],
          not_found := (vs.map pyStrip).filter (fun s => s != ""),
          already_complete := [], failed := [], fetched := true, calls := [] }) ∧
    (∀ (ok : Nat → Bool) (vs : List String), noValidValues vs = false →
      mark_incomplete none ok vs =
        { errorMsg := some "Error: Could not retrieve shopping list items to process request.",
          unmarked := [], not_found := [], already_incomplete := [], failed := [],
          fetched := true, calls := [] }) ∧
    (∀ (fetchs : Nat → Option (List Item)) (ok : Nat → Bool)
        (remaining iteration : Nat) (st : ClearSt),
      fetchs (iteration + 1) = none →
      clearLoop fetchs ok (remaining + 1) iteration st =
        { errorMsg := some (clearFetchErrorMsg st), iterations := iteration + 1,
          total_deleted_count := st.total_deleted_count,
          total_failed_items := st.total_failed_items, capped := false,
          calls := st.calls, missingIdRecords := st.missingIdRecords,
          observedCompleted := st.observedCompleted }) := by
  refine ⟨?_, ?_, ?_, ?_⟩
  · intro ok vs h
    have hfold := delete_foldl_nil ok vs
      { pool := [], deleted := [], not_found := [], missing_id := [],
        failed := [], k := 0, calls := [] } rfl
    simp [delete_item, h, hfold]
  · intro ok vs h
    have hfold := mc_foldl_nil ok vs
      { pool := [], marked := [], not_found := [], already_complete := [],
        failed := [], k := 0, calls := [] } rfl
    simp [mark_complete, h, hfold]
  · intro ok vs h
    simp [mark_incomplete, h]
  · intro fetchs ok remaining iteration st h
    simp [clearLoop, h]

/-- Witness for C1 on concrete inputs. -/
theorem fetch_failure_paths_witness :
    delete_item none (fun _ => false) ["a"] =
      { errorMsg := none, deleted := [],
        not_found := (["a"].map pyStrip).filter (fun s => s != ""),
        missing_id := [], failed := [], fetched := true, calls := [] } :=
  fetch_failure_paths.1 (fun _ => false) ["a"] (by decide)

/-- C2 counterexample: asking `mark_complete` for "Eggs" when the only remote
"Eggs" is already completed lands the name in `not_found`, not in
`already_complete`. -/
theorem already_complete_cex :
    (mark_complete (some [⟨some "1", some "Eggs", true⟩]) (fun _ => true)
      ["Eggs"]).already_complete = [] ∧
    (mark_complete (some [⟨some "1", some "Eggs", true⟩]) (fun _ => true)
      ["Eggs"]).not_found = ["Eggs"] := by
  exact ⟨by decide, by decide⟩

/-- Folding the `mark_complete` loop over a pool of incomplete items never
touches `already_complete` and keeps the pool incomplete. -/
lemma mc_foldl_incomplete_pool (ok : Nat → Bool) :
    ∀ (vs : List String) (st : MCSt), (∀ i ∈ st.pool, i.completed = false) →
      (vs.foldl (markCompleteStep ok) st).already_complete = st.already_complete ∧
      ∀ i ∈ (vs.foldl (markCompleteStep ok) st).pool, i.completed = false := by
  intro vs
  induction vs with
  | nil => intro st h; exact ⟨rfl, h⟩
  | cons v vs ih =>
    intro st h
    rw [List.foldl_cons]
    by_cases hv : pyStrip v = ""
    · have : markCompleteStep ok st v = st := by simp [markCompleteStep, hv]
      rw [this]; exact ih st h
    · rcases hfm : findMatch (pyStrip v) st.pool with _ | item
      · have : markCompleteStep ok st v =
            { st with not_found := st.not_found ++ [pyStrip v] } := by
          simp [markCompleteStep, hv, hfm]
        rw [this]
        exact ih _ h
      · have hc : item.completed = false := h item (findMatch_mem hfm)
        by_cases hk : ok st.k = true
        · have : markCompleteStep ok st v =
              { st with marked := st.marked ++ [pyStrip v],
                        pool := st.pool.erase item, k := st.k + 1,
                        calls := st.calls ++ [item] } := by
            simp [markCompleteStep, hv, hfm, hc, hk]
          rw [this]
          refine ih _ ?_
          intro i hi
          exact h i (List.mem_of_mem_erase hi)
        · have : markCompleteStep ok st v =
              { st with failed := st.failed ++ [pyStrip v], k := st.k + 1,
                        calls := st.calls ++ [item] } := by
            simp [markCompleteStep, hv, hfm, hc, hk]
          rw [this]
          exact ih _ h

/-- C2 (amended): the candidate pool of `mark_complete` is pre-filtered to
incomplete items, so the `already_complete` bucket is unreachable (always
empty); a name matching only already-completed remote items falls into
`not_found` and no mutate call is made for it. -/
theorem already_complete_unreachable :
    (∀ (fetchR : Option (List Item)) (ok : Nat → Bool) (vs : List String),
      (mark_complete fetchR ok vs).already_complete = []) ∧
    (∀ (items : List Item) (ok : Nat → Bool) (vs : List String),
      (∀ i ∈ items, i.completed = true) → noValidValues vs = false →
      mark_complete (some items) ok vs =
        { errorMsg := none, marked := [],
          not_found := (vs.map pyStrip).filter (fun s => s != ""),
          already_complete := [], failed := [], fetched := true,
          calls := [] }) := by
  constructor
  · intro fetchR ok vs
    by_cases hn : noValidValues vs = true
    · simp [mark_complete, hn]
    · cases fetchR with
      | none =>
        have h0 := mc_foldl_incomplete_pool ok vs
          { pool := [], marked := [], not_found := [], already_complete := [],
            failed := [], k := 0, calls := [] } (by intro i hi; simp at hi)
        simpa [mark_complete, hn] using h0.1
      | some items =>
        have hpool : ∀ i ∈ (if items = [] then ([] : List Item)
            else filter_incomplete_items items), i.completed = false := by
          by_cases he : items = []
          · simp [he]
          · intro i hi
            simp only [he, if_false] at hi
            have hm := List.mem_filter.mp hi
            simpa using hm.2
        have h0 := mc_foldl_incomplete_pool ok vs
          { pool := (if items = [] then ([] : List Item)
              else filter_incomplete_items items),
            marked := [], not_found := [], already_complete := [], failed := [],
            k := 0, calls := [] } hpool
        simpa [mark_complete, hn] using h0.1
  · intro items ok vs hall hn
    have hfil : filter_incomplete_items items = [] := by
      simp only [filter_incomplete_items]
      rw [List.filter_eq_nil_iff]
      intro i hi
      simp [hall i hi]
    have hpe : (if items = [] then ([] : List Item)
        else filter_incomplete_items items) = [] := by
      by_cases he : items = [] <;> simp [he, hfil]
    have hfold := mc_foldl_nil ok vs
      { pool := [], marked := [], not_found := [], already_complete := [],
        failed := [], k := 0, calls := [] } rfl
    simp only [mark_complete, hn, Bool.false_eq_true, if_false]
    rw [hpe, hfold]
    simp

/-- Witness for C2 at the "Eggs already completed" instance. -/
theorem already_complete_unreachable_witness :
    mark_complete (some [⟨some "1", some "Eggs", true⟩]) (fun _ => true) ["Eggs"] =
      { errorMsg := none, marked := [],
        not_found := (["Eggs"].map pyStrip).filter (fun s => s != ""),
        already_complete := [], failed := [], fetched := true, calls := [] } :=
  already_complete_unreachable.2 [⟨some "1", some "Eggs", true⟩] (fun _ => true)
    ["Eggs"] (by decide) (by decide)

/-- C3 counterexample: the same name twice in one `mark_incomplete` batch —
the second occurrence lands in `already_incomplete`, not `not_found`,
because the matched item stays in the pool flipped to incomplete. -/
theorem consumed_pool_cex :
    (mark_incomplete (some [⟨some "1", some "milk", true⟩]) (fun _ => true)
      ["milk", "milk"]).not_found = [] ∧
    (mark_incomplete (some [⟨some "1", some "milk", true⟩]) (fun _ => true)
      ["milk", "milk"]).already_incomplete = ["milk"] ∧
    (mark_incomplete (some [⟨some "1", some "milk", true⟩]) (fun _ => true)
      ["milk", "milk"]).unmarked = ["milk"] := by
  exact ⟨by decide, by decide, by decide⟩

/-- C3 (amended): `delete_item` and `mark_complete` remove a successfully
mutated item from the candidate pool (so a duplicate name lands in
`not_found`, as in the milk example of the spec), while `mark_incomplete` keeps
the item in the pool with `completed` flipped to `false` (so a duplicate
lands in `already_incomplete`); in all three, each success makes exactly one
mutate call on the matched item. -/
theorem consumed_pool_behavior :
    (∀ (ok : Nat → Bool) (st : DelSt) (v : String) (item : Item),
      pyStrip v ≠ "" → findMatch (pyStrip v) st.pool = some item →
      item.hasId = true → ok st.k = true →
      (deleteStep ok st v).pool = st.pool.erase item ∧
      (deleteStep ok st v).calls = st.calls ++ [item]) ∧
    (∀ (ok : Nat → Bool) (st : MCSt) (v : String) (item : Item),
      pyStrip v ≠ "" → findMatch (pyStrip v) st.pool = some item →
      item.completed = false → ok st.k = true →
      (markCompleteStep ok st v).pool = st.pool.erase item ∧
      (markCompleteStep ok st v).calls = st.calls ++ [item]) ∧
    (∀ (ok : Nat → Bool) (st : MISt) (v : String) (idx : Nat) (item : Item),
      pyStrip v ≠ "" → findMatchIdx (pyStrip v) st.pool 0 = some (idx, item) →
      item.completed = true → ok st.k = true →
      (markIncompleteStep ok st v).pool =
        st.pool.set idx { item with completed := false } ∧
      (markIncompleteStep ok st v).calls = st.calls ++ [item]) ∧
    (delete_item (some [⟨some "1", some "Milk", false⟩]) (fun _ => true)
        ["milk", " Milk "] =
      { errorMsg := none, deleted := ["milk"], not_found := ["Milk"],
        missing_id := [], failed := [], fetched := true,
        calls := [⟨some "1", some "Milk", false⟩] }) := by
  refine ⟨?_, ?_, ?_, by decide⟩
  · intro ok st v item hv hfm hid hk
    constructor <;> simp [deleteStep, hv, hfm, hid, hk]
  · intro ok st v item hv hfm hc hk
    constructor <;> simp [markCompleteStep, hv, hfm, hc, hk]
  · intro ok st v idx item hv hfm hc hk
    constructor <;> simp [markIncompleteStep, hv, hfm, hc, hk]

/-- Witness for C3 at a concrete successful delete step. -/
theorem consumed_pool_behavior_witness :
    (deleteStep (fun _ => true)
        { pool := [⟨some "1", some "milk", false⟩], deleted := [],
          not_found := [], missing_id := [], failed := [], k := 0,
          calls := [] } "milk").pool =
      [⟨some "1", some "milk", false⟩].erase ⟨some "1", some "milk", false⟩ ∧
    (deleteStep (fun _ => true)
        { pool := [⟨some "1", some "milk", false⟩], deleted := [],
          not_found := [], missing_id := [], failed := [], k := 0,
          calls := [] } "milk").calls = [] ++ [⟨some "1", some "milk", false⟩] :=
  consumed_pool_behavior.1 (fun _ => true)
    { pool := [⟨some "1", some "milk", false⟩], deleted := [], not_found := [],
      missing_id := [], failed := [], k := 0, calls := [] }
    "milk" ⟨some "1", some "milk", false⟩ (by decide) (by decide) (by decide)
    (by decide)

/-- C5 counterexample: `mark_complete` has no missing-id check — a matched
item without an `id` is passed straight to the mutate call (which here
succeeds), instead of being bucketed with no call made. -/
theorem missing_id_mc_cex :
    (mark_complete (some [⟨none, some "Milk", false⟩]) (fun _ => true)
      ["Milk"]).calls = [⟨none, some "Milk", false⟩] ∧
    (mark_complete (some [⟨none, some "Milk", false⟩]) (fun _ => true)
      ["Milk"]).marked = ["Milk"] := by
  exact ⟨by decide, by decide⟩

/-- C5 (amended): only the `delete_item` path buckets a matched id-less
candidate into `missing_id` with no mutate call; the `mark_complete` path
makes the mutate call on a matched incomplete item regardless of its `id`. -/
theorem missing_id_delete_only :
    (∀ (ok : Nat → Bool) (st : DelSt) (v : String) (item : Item),
      pyStrip v ≠ "" → findMatch (pyStrip v) st.pool = some item →
      item.hasId = false →
      deleteStep ok st v = { st with missing_id := st.missing_id ++ [pyStrip v] }) ∧
    (∀ (ok : Nat → Bool) (st : MCSt) (v : String) (item : Item),
      pyStrip v ≠ "" → findMatch (pyStrip v) st.pool = some item →
      item.completed = false →
      (markCompleteStep ok st v).calls = st.calls ++ [item]) := by
  constructor
  · intro ok st v item hv hfm hid
    simp [deleteStep, hv, hfm, hid]
  · intro ok st v item hv hfm hc
    by_cases hk : ok st.k = true <;> simp [markCompleteStep, hv, hfm, hc, hk]

/-- Witness for C5: a matched id-less item on the delete path is bucketed
`missing_id` with nothing else changed. -/
theorem missing_id_delete_only_witness :
    deleteStep (fun _ => true)
        { pool := [⟨none, some "A", false⟩], deleted := [], not_found := [],
          missing_id := [], failed := [], k := 0, calls := [] } "A" =
      { pool := [⟨none, some "A", false⟩], deleted := [], not_found := [],
        missing_id := [] ++ ["A"], failed := [], k := 0, calls := [] } :=
  missing_id_delete_only.1 (fun _ => true)
    { pool := [⟨none, some "A", false⟩], deleted := [], not_found := [],
      missing_id := [], failed := [], k := 0, calls := [] }
    "A" ⟨none, some "A", false⟩ (by decide) (by decide) (by decide)

/-- One clear-loop item adds at most one deletion and never changes the
observed-completed count. -/
lemma clearItemStep_deleted_le (ok : Nat → Bool) (acc : ClearSt × List String)
    (item : Item) :
    (clearItemStep ok acc item).1.total_deleted_count ≤
      acc.1.total_deleted_count + 1 ∧
    (clearItemStep ok acc item).1.observedCompleted = acc.1.observedCompleted := by
  simp only [clearItemStep]
  split_ifs <;> simp

/-- Folding the completed batch of one snapshot adds at most `batch.length`
deletions and keeps the observed count. -/
lemma clearFold_deleted_le (ok : Nat → Bool) :
    ∀ (batch : List Item) (acc : ClearSt × List String),
      (batch.foldl (clearItemStep ok) acc).1.total_deleted_count ≤
        acc.1.total_deleted_count + batch.length ∧
      (batch.foldl (clearItemStep ok) acc).1.observedCompleted =
        acc.1.observedCompleted := by
  intro batch
  induction batch with
  | nil => intro acc; simp
  | cons i rest ih =>
    intro acc
    rw [List.foldl_cons]
    have hstep := clearItemStep_deleted_le ok acc i
    have hrest := ih (clearItemStep ok acc i)
    constructor
    · have h1 := hrest.1
      have h2 := hstep.1
      simp only [List.length_cons]
      omega
    · rw [hrest.2, hstep.2]

/-- Unfolding of a productive clear-loop iteration. -/
lemma clearLoop_succ_step (fetchs : Nat → Option (List Item)) (ok : Nat → Bool)
    (n iteration : Nat) (st : ClearSt) (all_items : List Item)
    (hf : fetchs (iteration + 1) = some all_items)
    (hb : all_items.filter (fun i => i.completed) ≠ []) :
    clearLoop fetchs ok (n + 1) iteration st =
      clearLoop fetchs ok n (iteration + 1)
        { ((all_items.filter (fun i => i.completed)).foldl (clearItemStep ok)
            ({ st with observedCompleted :=
                st.observedCompleted + (all_items.filter (fun i => i.completed)).length },
             [])).1 with
          total_failed_items :=
            ((all_items.filter (fun i => i.completed)).foldl (clearItemStep ok)
              ({ st with observedCompleted :=
                  st.observedCompleted + (all_items.filter (fun i => i.completed)).length },
               [])).1.total_failed_items ++
            ((all_items.filter (fun i => i.completed)).foldl (clearItemStep ok)
              ({ st with observedCompleted :=
                  st.observedCompleted + (all_items.filter (fun i => i.completed)).length },
               [])).2 } := by
  simp [clearLoop, hf, hb]

/-- The clear loop runs at most `fuel` more iterations and preserves the
deleted-count-vs-observed bound. -/
lemma clearLoop_le (fetchs : Nat → Option (List Item)) (ok : Nat → Bool) :
    ∀ (fuel iteration : Nat) (st : ClearSt),
      (clearLoop fetchs ok fuel iteration st).iterations ≤ iteration + fuel ∧
      (st.total_deleted_count ≤ st.observedCompleted →
        (clearLoop fetchs ok fuel iteration st).total_deleted_count ≤
          (clearLoop fetchs ok fuel iteration st).observedCompleted) := by
  intro fuel
  induction fuel with
  | zero =>
    intro iteration st
    exact ⟨Nat.le_refl _, fun h => h⟩
  | succ n ih =>
    intro iteration st
    cases hf : fetchs (iteration + 1) with
    | none =>
      constructor
      · simp only [clearLoop, hf]
        omega
      · intro h
        simpa only [clearLoop, hf] using h
    | some all_items =>
      by_cases hb : all_items.filter (fun i => i.completed) = []
      · constructor
        · simp only [clearLoop, hf, hb, if_pos]
          omega
        · intro h
          simpa only [clearLoop, hf, hb, if_pos] using h
      · rw [clearLoop_succ_step fetchs ok n iteration st all_items hf hb]
        have hfold := clearFold_deleted_le ok (all_items.filter (fun i => i.completed))
          ({ st with observedCompleted :=
              st.observedCompleted + (all_items.filter (fun i => i.completed)).length },
           [])
        have hrec := ih (iteration + 1)
          { ((all_items.filter (fun i => i.completed)).foldl (clearItemStep ok)
              ({ st with observedCompleted :=
                  st.observedCompleted + (all_items.filter (fun i => i.completed)).length },
               [])).1 with
            total_failed_items :=
              ((all_items.filter (fun i => i.completed)).foldl (clearItemStep ok)
                ({ st with observedCompleted :=
                    st.observedCompleted + (all_items.filter (fun i => i.completed)).length },
                 [])).1.total_failed_items ++
              ((all_items.filter (fun i => i.completed)).foldl (clearItemStep ok)
                ({ st with observedCompleted :=
                    st.observedCompleted + (all_items.filter (fun i => i.completed)).length },
                 [])).2 }
        constructor
        · have h1 := hrec.1
          omega
        · intro h
          refine hrec.2 ?_
          have h1 := hfold.1
          have h2 := hfold.2
          simp only at h1 h2 ⊢
          omega

/-- C4: `clear_completed_items` stops within the iteration cap of 10, and
the deleted count it reports never exceeds the number of completed items
observed across all its snapshots. -/
theorem clear_cap_and_deleted_bound (fetchs : Nat → Option (List Item))
    (ok : Nat → Bool) :
    (clear_completed_items fetchs ok).iterations ≤ 10 ∧
    (clear_completed_items fetchs ok).total_deleted_count ≤
      (clear_completed_items fetchs ok).observedCompleted := by
  have h := clearLoop_le fetchs ok 10 0
    { total_deleted_count := 0, total_failed_items := [], k := 0, calls := [],
      missingIdRecords := [], observedCompleted := 0 }
  exact ⟨h.1, h.2 (Nat.le_refl 0)⟩

/-- Witness for C4 on a concrete oscillating-fetch scenario. -/
theorem clear_cap_and_deleted_bound_witness :
    (clear_completed_items (fun _ => some [⟨some "1", some "x", true⟩])
        (fun _ => false)).iterations ≤ 10 ∧
    (clear_completed_items (fun _ => some [⟨some "1", some "x", true⟩])
        (fun _ => false)).total_deleted_count ≤
      (clear_completed_items (fun _ => some [⟨some "1", some "x", true⟩])
        (fun _ => false)).observedCompleted :=
  clear_cap_and_deleted_bound (fun _ => some [⟨some "1", some "x", true⟩])
    (fun _ => false)

/-- One clear-loop item preserves the missing-id bookkeeping invariants:
missing-id records stay duplicate-free, live inside the failure list, keep
the " (Missing ID)" suffix form, delete calls are made only on items with a
truthy id, and the deleted count stays bounded by the number of calls. -/
lemma clearItemStep_inv (ok : Nat → Bool) (st : ClearSt) (bf : List String)
    (item : Item)
    (h1 : st.missingIdRecords.Nodup)
    (h2 : ∀ s ∈ st.missingIdRecords, s ∈ st.total_failed_items)
    (h3 : ∀ s ∈ st.missingIdRecords, ∃ v, s = v ++ " (Missing ID)")
    (h4 : ∀ i ∈ st.calls, i.hasId = true)
    (h5 : st.total_deleted_count ≤ st.calls.length) :
    (clearItemStep ok (st, bf) item).1.missingIdRecords.Nodup ∧
    (∀ s ∈ (clearItemStep ok (st, bf) item).1.missingIdRecords,
      s ∈ (clearItemStep ok (st, bf) item).1.total_failed_items) ∧
    (∀ s ∈ (clearItemStep ok (st, bf) item).1.missingIdRecords,
      ∃ v, s = v ++ " (Missing ID)") ∧
    (∀ i ∈ (clearItemStep ok (st, bf) item).1.calls, i.hasId = true) ∧
    (clearItemStep ok (st, bf) item).1.total_deleted_count ≤
      (clearItemStep ok (st, bf) item).1.calls.length := by
  by_cases hid : item.hasId = true
  · by_cases hk : ok st.k = true
    · have hres : clearItemStep ok (st, bf) item =
          ({ st with
              k := st.k + 1, calls := st.calls ++ [item],
              total_deleted_count := st.total_deleted_count + 1 }, bf) := by
        simp [clearItemStep, hid, hk]
      rw [hres]
      refine ⟨h1, h2, h3, ?_, ?_⟩
      · intro i hi
        rcases List.mem_append.mp hi with h | h
        · exact h4 i h
        · simp only [List.mem_singleton] at h
          rw [h]; exact hid
      · simp only [List.length_append, List.length_singleton]
        omega
    · by_cases hmem : item.valueD "<Unknown Item>" ∈ bf ∨
          item.valueD "<Unknown Item>" ∈ st.total_failed_items
      · have hres : clearItemStep ok (st, bf) item =
            ({ st with k := st.k + 1, calls := st.calls ++ [item] }, bf) := by
          simp only [clearItemStep, hid, Bool.not_true, Bool.false_eq_true,
            if_false, hk, if_pos hmem]
        rw [hres]
        refine ⟨h1, h2, h3, ?_, ?_⟩
        · intro i hi
          rcases List.mem_append.mp hi with h | h
          · exact h4 i h
          · simp only [List.mem_singleton] at h
            rw [h]; exact hid
        · simp only [List.length_append, List.length_singleton]
          omega
      · have hres : clearItemStep ok (st, bf) item =
            ({ st with k := st.k + 1, calls := st.calls ++ [item] },
             bf ++ [item.valueD "<Unknown Item>"]) := by
          simp only [clearItemStep, hid, Bool.not_true, Bool.false_eq_true,
            if_false, hk, if_neg hmem]
        rw [hres]
        refine ⟨h1, h2, h3, ?_, ?_⟩
        · intro i hi
          rcases List.mem_append.mp hi with h | h
          · exact h4 i h
          · simp only [List.mem_singleton] at h
            rw [h]; exact hid
        · simp only [List.length_append, List.length_singleton]
          omega
  · have hid2 : item.hasId = false := by simpa using hid
    by_cases hmem : (item.valueD "<Unknown Item>" ++ " (Missing ID)") ∈
        st.total_failed_items
    · have hres : clearItemStep ok (st, bf) item = (st, bf) := by
        simp [clearItemStep, hid2, hmem]
      rw [hres]
      exact ⟨h1, h2, h3, h4, h5⟩
    · have hres : clearItemStep ok (st, bf) item =
          ({ st with
              total_failed_items := st.total_failed_items ++
                [item.valueD "<Unknown Item>" ++ " (Missing ID)"],
              missingIdRecords := st.missingIdRecords ++
                [item.valueD "<Unknown Item>" ++ " (Missing ID)"] }, bf) := by
        simp [clearItemStep, hid2, hmem]
      rw [hres]
      refine ⟨?_, ?_, ?_, h4, h5⟩
      · have he : (item.valueD "<Unknown Item>" ++ " (Missing ID)") ∉
            st.missingIdRecords := fun hc => hmem (h2 _ hc)
        simp [List.nodup_append, h1, he]
      · intro s hs
        rcases List.mem_append.mp hs with h | h
        · exact List.mem_append.mpr (Or.inl (h2 s h))
        · exact List.mem_append.mpr (Or.inr h)
      · intro s hs
        rcases List.mem_append.mp hs with h | h
        · exact h3 s h
        · simp only [List.mem_singleton] at h
          exact ⟨item.valueD "<Unknown Item>", h⟩

/-- Folding a whole snapshot batch preserves the missing-id invariants. -/
lemma clearFold_inv (ok : Nat → Bool) :
    ∀ (batch : List Item) (st : ClearSt) (bf : List String),
      st.missingIdRecords.Nodup →
      (∀ s ∈ st.missingIdRecords, s ∈ st.total_failed_items) →
      (∀ s ∈ st.missingIdRecords, ∃ v, s = v ++ " (Missing ID)") →
      (∀ i ∈ st.calls, i.hasId = true) →
      st.total_deleted_count ≤ st.calls.length →
      (batch.foldl (clearItemStep ok) (st, bf)).1.missingIdRecords.Nodup ∧
      (∀ s ∈ (batch.foldl (clearItemStep ok) (st, bf)).1.missingIdRecords,
        s ∈ (batch.foldl (clearItemStep ok) (st, bf)).1.total_failed_items) ∧
      (∀ s ∈ (batch.foldl (clearItemStep ok) (st, bf)).1.missingIdRecords,
        ∃ v, s = v ++ " (Missing ID)") ∧
      (∀ i ∈ (batch.foldl (clearItemStep ok) (st, bf)).1.calls, i.hasId = true) ∧
      (batch.foldl (clearItemStep ok) (st, bf)).1.total_deleted_count ≤
        (batch.foldl (clearItemStep ok) (st, bf)).1.calls.length := by
  intro batch
  induction batch with
  | nil => intro st bf h1 h2 h3 h4 h5; exact ⟨h1, h2, h3, h4, h5⟩
  | cons i rest ih =>
    intro st bf h1 h2 h3 h4 h5
    rw [List.foldl_cons]
    have hstep := clearItemStep_inv ok st bf i h1 h2 h3 h4 h5
    exact ih (clearItemStep ok (st, bf) i).1 (clearItemStep ok (st, bf) i).2
      hstep.1 hstep.2.1 hstep.2.2.1 hstep.2.2.2.1 hstep.2.2.2.2

/-- The whole clear loop preserves the missing-id invariants. -/
lemma clearLoop_inv (fetchs : Nat → Option (List Item)) (ok : Nat → Bool) :
    ∀ (fuel iteration : Nat) (st : ClearSt),
      st.missingIdRecords.Nodup →
      (∀ s ∈ st.missingIdRecords, s ∈ st.total_failed_items) →
      (∀ s ∈ st.missingIdRecords, ∃ v, s = v ++ " (Missing ID)") →
      (∀ i ∈ st.calls, i.hasId = true) →
      st.total_deleted_count ≤ st.calls.length →
      (clearLoop fetchs ok fuel iteration st).missingIdRecords.Nodup ∧
      (∀ s ∈ (clearLoop fetchs ok fuel iteration st).missingIdRecords,
        s ∈ (clearLoop fetchs ok fuel iteration st).total_failed_items) ∧
      (∀ s ∈ (clearLoop fetchs ok fuel iteration st).missingIdRecords,
        ∃ v, s = v ++ " (Missing ID)") ∧
      (∀ i ∈ (clearLoop fetchs ok fuel iteration st).calls, i.hasId = true) ∧
      (clearLoop fetchs ok fuel iteration st).total_deleted_count ≤
        (clearLoop fetchs ok fuel iteration st).calls.length := by
  intro fuel
  induction fuel with
  | zero => intro iteration st h1 h2 h3 h4 h5; exact ⟨h1, h2, h3, h4, h5⟩
  | succ n ih =>
    intro iteration st h1 h2 h3 h4 h5
    cases hf : fetchs (iteration + 1) with
    | none =>
      refine ⟨?_, ?_, ?_, ?_, ?_⟩ <;> simp only [clearLoop, hf] <;>
        first
          | exact h1
          | exact h2
          | exact h3
          | exact h4
          | exact h5
    | some all_items =>
      by_cases hb : all_items.filter (fun i => i.completed) = []
      · refine ⟨?_, ?_, ?_, ?_, ?_⟩ <;> simp only [clearLoop, hf, hb, if_pos] <;>
          first
            | exact h1
            | exact h2
            | exact h3
            | exact h4
            | exact h5
      · rw [clearLoop_succ_step fetchs ok n iteration st all_items hf hb]
        have hfold := clearFold_inv ok (all_items.filter (fun i => i.completed))
          { st with observedCompleted :=
              st.observedCompleted + (all_items.filter (fun i => i.completed)).length }
          [] h1 h2 h3 h4 h5
        refine ih (iteration + 1) _ hfold.1 ?_ hfold.2.2.1 hfold.2.2.2.1
          hfold.2.2.2.2
        intro s hs
        exact List.mem_append.mpr (Or.inl (hfold.2.1 s hs))

/-- C10: in `clear_completed_items`, completed items lacking an id receive no
delete-one call (every traced call has a truthy id, and the deleted count —
which only successful calls increment — is bounded by the call count), and
each missing-id record, of the form `value ++ " (Missing ID)"`, appears at
most once and lands in the reported failure list. -/
theorem clear_missing_id_handling (fetchs : Nat → Option (List Item))
    (ok : Nat → Bool) :
    (clear_completed_items fetchs ok).missingIdRecords.Nodup ∧
    (∀ s ∈ (clear_completed_items fetchs ok).missingIdRecords,
      s ∈ (clear_completed_items fetchs ok).total_failed_items ∧
      ∃ v, s = v ++ " (Missing ID)") ∧
    (∀ i ∈ (clear_completed_items fetchs ok).calls, i.hasId = true) ∧
    (clear_completed_items fetchs ok).total_deleted_count ≤
      (clear_completed_items fetchs ok).calls.length := by
  have h := clearLoop_inv fetchs ok 10 0
    { total_deleted_count := 0, total_failed_items := [], k := 0, calls := [],
      missingIdRecords := [], observedCompleted := 0 }
    List.nodup_nil (by intro s hs; simp at hs) (by intro s hs; simp at hs)
    (by intro i hi; simp at hi) (Nat.le_refl 0)
  exact ⟨h.1, fun s hs => ⟨h.2.1 s hs, h.2.2.1 s hs⟩, h.2.2.2.1, h.2.2.2.2⟩

/-- Witness for C10 on a snapshot holding one missing-id completed item. -/
theorem clear_missing_id_handling_witness :
    (clear_completed_items
        (fun n => if n = 1 then some [⟨none, some "y", true⟩] else some [])
        (fun _ => true)).missingIdRecords.Nodup ∧
    (∀ s ∈ (clear_completed_items
        (fun n => if n = 1 then some [⟨none, some "y", true⟩] else some [])
        (fun _ => true)).missingIdRecords,
      s ∈ (clear_completed_items
        (fun n => if n = 1 then some [⟨none, some "y", true⟩] else some [])
        (fun _ => true)).total_failed_items ∧
      ∃ v, s = v ++ " (Missing ID)") ∧
    (∀ i ∈ (clear_completed_items
        (fun n => if n = 1 then some [⟨none, some "y", true⟩] else some [])
        (fun _ => true)).calls, i.hasId = true) ∧
    (clear_completed_items
        (fun n => if n = 1 then some [⟨none, some "y", true⟩] else some [])
        (fun _ => true)).total_deleted_count ≤
      (clear_completed_items
        (fun n => if n = 1 then some [⟨none, some "y", true⟩] else some [])
        (fun _ => true)).calls.length :=
  clear_missing_id_handling
    (fun n => if n = 1 then some [⟨none, some "y", true⟩] else some [])
    (fun _ => true)
